import Mathlib

/-!
Verification development for the WORLD FRAUD ENGINE (src/s.py).

Shallow embedding conventions:
* Python floats (amounts, risk scores, timestamps) are modelled as `ℚ`;
  all thresholds in the source are short decimals, so the arithmetic of the
  source is represented exactly.
* Timestamps (`datetime.now()`) are rationals counting seconds; `now.hour`
  is derived by `hourOf` (floor-division by 3600 modulo 24).
* The interactive `input(...)` calls are modelled as fields of `TxInput`
  (one record of responder answers per transaction), following the spec's
  `ChallengeResponder` boundary.
* `validate_location` depends on the external `pycountry` database and is
  excluded by the spec as a black-box geo-reference lookup; a transaction
  carries its resolved result (`region`, `known_location`, `loc_reason`).
* The module-level mutable `spending_history` and `main`'s local counters
  are gathered into an explicit `SessionState` record.
* `print` side effects are not modelled, except that the argument of
  `print_block_instructions` ("frozen" / "blocked") is recorded in the
  step output so that reachability of the BLOCKED branch can be stated.
* `session_log` is write-only presentation data (printed in the session
  summary); no claim refers to it so it is not carried in the state.
* Numeric string formatting (Python's `:.2f`) is abstracted by `toString`;
  no claim depends on the exact rendering of interpolated numbers.
-/

set_option linter.unusedVariables false
set_option linter.unnecessarySeqFocus false

namespace FraudEngine

/-- Lower-case a string character by character (Python's `str.lower`). -/
def lowerStr (s : String) : String := String.mk (s.data.map Char.toLower)

/-- Python's `str.strip()`: drop whitespace at both ends. Implemented over
the character list (rather than by `String.trim`, whose iterator loops do
not reduce) so that witnesses can evaluate it. -/
def trimStr (s : String) : String :=
  String.mk (((s.data.dropWhile Char.isWhitespace).reverse.dropWhile Char.isWhitespace).reverse)

/-- Hour of day of a timestamp given in seconds (Python's `now.hour`). -/
def hourOf (now : ℚ) : ℕ := ((Rat.floor (now / 3600)) % 24).toNat

/-- `AVERAGE_SPEND = 500` (unused by the core logic). -/
def AVERAGE_SPEND : ℚ := 500

/-- `CORRECT_PIN = "1234"`. -/
def CORRECT_PIN : String := "1234"

/-- `SIM_LAST_NAME = "Wahdan"`. -/
def SIM_LAST_NAME : String := "Wahdan"

/-- `SIM_DOB = "1990-05-14"`. -/
def SIM_DOB : String := "1990-05-14"

/-- `SIM_CVV = "123"`. -/
def SIM_CVV : String := "123"

/-- The keys of the `MERCHANT_RISK` dict. -/
def merchantKeys : List String := ["1", "2", "3", "4", "5", "6", "7"]

/-- The `MERCHANT_RISK` dict as a lookup function; an absent key yields
`MERCHANT_RISK["7"]`, matching `MERCHANT_RISK.get(choice, MERCHANT_RISK["7"])`. -/
def merchantPair (choice : String) : String × ℚ :=
  if choice = "1" then ("Groceries / Essentials", 0.00)
  else if choice = "2" then ("Restaurants / Food", 0.05)
  else if choice = "3" then ("Electronics / Tech", 0.10)
  else if choice = "4" then ("Travel / Airline / Hotel", 0.15)
  else if choice = "5" then ("Online / E-commerce / Marketplace", 0.20)
  else if choice = "6" then ("Gift Cards / Crypto / Reloadables", 0.30)
  else ("Other / Misc", 0.05)

/-- One entry of `spending_history`:
`{"amount", "merchant", "hour", "region"}`. -/
structure HistEntry where
  amount : ℚ
  merchant : String
  hour : ℕ
  region : String
deriving DecidableEq

/-- `add_amount_zone_risk(amount, reasons)`: returns the contribution and the
(extended) reasons list, modelling the in-place `reasons.append`. -/
def add_amount_zone_risk (amount : ℚ) (reasons : List String) : ℚ × List String :=
  if amount ≤ 500 then (0.0, reasons)
  else if amount ≤ 2000 then (0.10, reasons ++ ["Caution spend zone ($501–$2,000)"])
  else if amount ≤ 5000 then (0.20, reasons ++ ["Risk spend zone ($2,001–$5,000)"])
  else if amount ≤ 10000 then (0.30, reasons ++ ["High-risk spend zone ($5,001–$10,000)"])
  else if amount ≤ 20000 then (0.40, reasons ++ ["Severe spend zone ($10,001–$20,000)"])
  else (0.50, reasons ++ ["Critical spend zone (>$20,000)"])

/-- `add_location_risk(region, reasons)`; `region` is `None` or a resolved
region string, and `None != "ab"` holds in Python. -/
def add_location_risk (region : Option String) (reasons : List String) : ℚ × List String :=
  if region ≠ some ("ab") then
    (0.30, reasons ++ ["Transaction outside normal Alberta activity zone"])
  else (0.0, reasons)

/-- `add_unknown_location_risk(known_location, reasons)`. -/
def add_unknown_location_risk (known_location : Bool) (reasons : List String) : ℚ × List String :=
  if !known_location then
    (0.10, reasons ++ ["Unknown / unverified location"])
  else (0.0, reasons)

/-- `add_time_of_day_risk(now, reasons)`; takes `now.hour` (see `hourOf`). -/
def add_time_of_day_risk (hour : ℕ) (reasons : List String) : ℚ × List String :=
  if hour < 5 then
    (0.10, reasons ++ ["Late-night transaction (00:00–05:00)"])
  else (0.0, reasons)

/-- `add_merchant_risk(merchant_choice, reasons)`. -/
def add_merchant_risk (merchant_choice : String) (reasons : List String) : ℚ × List String :=
  let lr := merchantPair merchant_choice
  (lr.2, reasons ++ ["Merchant category: " ++ lr.1])

/-- `add_velocity_risk(last_tx_time, now, reasons)`; `timedelta(seconds=60)`
is 60 on the seconds timeline. -/
def add_velocity_risk (last_tx_time : Option ℚ) (now : ℚ) (reasons : List String) : ℚ × List String :=
  match last_tx_time with
  | none => (0.0, reasons)
  | some prev =>
      if now - prev ≤ 60 then
        (0.15, reasons ++ ["High transaction velocity (within 60 seconds)"])
      else (0.0, reasons)

/-- `add_location_jump_risk(last_region, region, reasons)`; resolved regions
are never the empty string, so Python's `x or "unknown"` is `Option.getD`. -/
def add_location_jump_risk (last_region : Option String) (region : Option String)
    (reasons : List String) : ℚ × List String :=
  match last_region with
  | none => (0.0, reasons)
  | some prev =>
      if region.getD ("unknown") ≠ prev then
        (0.10, reasons ++ ["Sudden change in transaction region"])
      else (0.0, reasons)

/-- The spending-pattern profile returned by `analyze_spending_patterns`. -/
structure Patterns where
  avg_amount : ℚ
  frequent_merchant : String
  avg_hour : ℚ
  frequent_region : String

/-- `max(set(xs), key=xs.count)`: an element of maximal multiplicity.
Python's tie-break (set iteration order) is unspecified; we fix the
first-occurring maximal element, which the spec notes as the recommended
deterministic choice. -/
def mode (xs : List String) : String :=
  xs.foldl (fun best x => if xs.count best < xs.count x then x else best) (xs.headD (""))

/-- `analyze_spending_patterns()`, with the module-level `spending_history`
passed explicitly. -/
def analyze_spending_patterns (history : List HistEntry) : Option Patterns :=
  if history.length < 5 then none
  else some
    { avg_amount := (history.map (fun tx => tx.amount)).sum / (history.length : ℚ)
      frequent_merchant := mode (history.map (fun tx => tx.merchant))
      avg_hour := (history.map (fun tx => (tx.hour : ℚ))).sum / (history.length : ℚ)
      frequent_region := mode (history.map (fun tx => tx.region)) }

/-- `add_behavioral_risk(amount, merchant_label, now, region, reasons)`;
`now.hour` is passed as `hour`, the history explicitly. -/
def add_behavioral_risk (history : List HistEntry) (amount : ℚ) (merchant_label : String)
    (hour : ℕ) (region : String) (reasons : List String) : ℚ × List String :=
  match analyze_spending_patterns history with
  | none => (0.0, reasons)
  | some patterns =>
      let acc1 : ℚ × List String :=
        if amount > patterns.avg_amount * 3 then
          (0.20, reasons ++ ["Unusually high amount vs normal ($" ++
            toString patterns.avg_amount ++ " avg)"])
        else (0.0, reasons)
      let acc2 : ℚ × List String :=
        if merchant_label ≠ patterns.frequent_merchant then
          (acc1.1 + 0.10, acc1.2 ++ ["Merchant differs from usual (" ++
            patterns.frequent_merchant ++ ")"])
        else acc1
      let acc3 : ℚ × List String :=
        if |(hour : ℚ) - patterns.avg_hour| > 6 then
          (acc2.1 + 0.10, acc2.2 ++ ["Transaction time unusual vs typical behaviour"])
        else acc2
      let acc4 : ℚ × List String :=
        if region ≠ patterns.frequent_region then
          (acc3.1 + 0.10, acc3.2 ++ ["Region unusual — typical region: " ++
            patterns.frequent_region])
        else acc3
      acc4

/-- `decide(risk)`: the decision classifier band mapping. -/
def decide (risk : ℚ) : String :=
  if risk < 0.50 then "APPROVED"
  else if 0.50 ≤ risk ∧ risk ≤ 0.80 then "APPROVED (FLAGGED)"
  else if 0.80 < risk ∧ risk ≤ 0.90 then "CALL BANK (Verification Recommended)"
  else if 0.90 < risk ∧ risk < 1.0 then "CARD UNDER REVIEW (High Risk)"
  else "CRITICAL RISK (Manual Review Needed)"

/-- The answers that the interactive prompts of `run_verification` read,
one record per transaction (the spec's `ChallengeResponder`). -/
structure Responses where
  last_name : String
  dob : String
  cvv : String
  pin : String
  mid_choice : String
deriving DecidableEq

/-- The identity fields of the FULL verification tier, in prompt order. -/
inductive Field where
  | last_name
  | dob
  | cvv
  | pin
deriving DecidableEq

/-- The FULL tier of `run_verification`, together with the list of fields
actually prompted for: each `input` is consumed in order and the first
mismatch returns `False` before the next prompt is issued. -/
def full_tier_trace (r : Responses) : List Field × Bool :=
  if lowerStr (trimStr r.last_name) ≠ lowerStr SIM_LAST_NAME then ([.last_name], false)
  else if (trimStr r.dob) ≠ SIM_DOB then ([.last_name, .dob], false)
  else if (trimStr r.cvv) ≠ SIM_CVV then ([.last_name, .dob, .cvv], false)
  else if (trimStr r.pin) ≠ CORRECT_PIN then ([.last_name, .dob, .cvv, .pin], false)
  else ([.last_name, .dob, .cvv, .pin], true)

/-- The FULL tier's pass/fail result. -/
def full_tier (r : Responses) : Bool := (full_tier_trace r).2

/-- The MID tier (`PIN + ONE of Last Name / DOB / CVV`). -/
def mid_tier (r : Responses) : Bool :=
  if (trimStr r.pin) ≠ CORRECT_PIN then false
  else if (trimStr r.mid_choice) = "1" then
    if lowerStr (trimStr r.last_name) ≠ lowerStr SIM_LAST_NAME then false else true
  else if (trimStr r.mid_choice) = "2" then
    if (trimStr r.dob) ≠ SIM_DOB then false else true
  else if (trimStr r.mid_choice) = "3" then
    if (trimStr r.cvv) ≠ SIM_CVV then false else true
  else false

/-- The PIN-only tier. -/
def pin_tier (r : Responses) : Bool :=
  if (trimStr r.pin) ≠ CORRECT_PIN then false else true

/-- `run_verification(amount, risk)`: computes the three tier booleans and
takes the first matching tier, strictest first; with no tier it returns
`True`. -/
def run_verification (amount risk : ℚ) (r : Responses) : Bool :=
  if amount > 5000 ∨ risk ≥ 0.90 then full_tier r
  else if amount > 2000 ∨ risk ≥ 0.70 then mid_tier r
  else if amount > 1000 ∨ risk ≥ 0.50 then pin_tier r
  else true

/-- The verification tier an `(amount, risk)` pair is routed to; mirrors the
branch order of `run_verification`. -/
inductive Tier where
  | full
  | mid
  | pinOnly
  | noTier
deriving DecidableEq

/-- Which branch of `run_verification` executes. -/
def selectTier (amount risk : ℚ) : Tier :=
  if amount > 5000 ∨ risk ≥ 0.90 then .full
  else if amount > 2000 ∨ risk ≥ 0.70 then .mid
  else if amount > 1000 ∨ risk ≥ 0.50 then .pinOnly
  else .noTier

/-- The session state of `main` (its local counters, the last-transaction
trackers, and the module-level `spending_history`). -/
structure SessionState where
  flagged_count : ℕ
  pin_fails : ℕ
  card_blocked : Bool
  last_tx_time : Option ℚ
  last_region : Option String
  spending_history : List HistEntry
deriving DecidableEq

/-- The state at the top of `main`. -/
def initState : SessionState :=
  { flagged_count := 0, pin_fails := 0, card_blocked := false
    last_tx_time := none, last_region := none, spending_history := [] }

/-- All the interactive inputs of one iteration of `main`'s loop:
the amount, the wall-clock instant, the externally resolved location
(see the geo-reference boundary), the merchant choice, the challenge
responses, and the continuation answer. -/
structure TxInput where
  amount : ℚ
  now : ℚ
  region : Option String
  known_location : Bool
  loc_reason : String
  merchant_choice : String
  responses : Responses
  again : String
deriving DecidableEq

/-- `choice` after the `if choice not in MERCHANT_RISK: choice = "7"` fixup. -/
def merchant_choice_norm (t : TxInput) : String :=
  if merchantKeys.contains t.merchant_choice then t.merchant_choice else "7"

/-- `merchant_label` as bound in `main`. -/
def merchant_label_of (t : TxInput) : String := (merchantPair (merchant_choice_norm t)).1

/-- The RISK CALCULATION block of `main`: the eight `risk += add_*` calls
threading one `reasons` list, the final `reasons.append(loc_reason)`, and
the clamp `risk = min(risk, 1.0)`. -/
def computeRisk (s : SessionState) (t : TxInput) : ℚ × List String :=
  let a1 := add_amount_zone_risk t.amount []
  let a2 := add_location_risk t.region a1.2
  let a3 := add_unknown_location_risk t.known_location a2.2
  let a4 := add_time_of_day_risk (hourOf t.now) a3.2
  let a5 := add_merchant_risk (merchant_choice_norm t) a4.2
  let a6 := add_velocity_risk s.last_tx_time t.now a5.2
  let a7 := add_location_jump_risk s.last_region t.region a6.2
  let a8 := add_behavioral_risk s.spending_history t.amount (merchant_label_of t)
    (hourOf t.now) (t.region.getD ("unknown")) a7.2
  (min (0.0 + a1.1 + a2.1 + a3.1 + a4.1 + a5.1 + a6.1 + a7.1 + a8.1) 1.0,
   a8.2 ++ [t.loc_reason])

/-- The clamped risk score of a transaction. -/
def riskOf (s : SessionState) (t : TxInput) : ℚ := (computeRisk s t).1

/-- `verification_required = (amount > 1000) or (risk >= 0.50)`. -/
def verification_required (s : SessionState) (t : TxInput) : Prop :=
  t.amount > 1000 ∨ riskOf s t ≥ 0.50

instance (s : SessionState) (t : TxInput) : Decidable (verification_required s t) :=
  inferInstanceAs (Decidable (_ ∨ _))

/-- The observable outcome of one loop iteration: the state after it, whether
the loop exits (`break`), and the argument of the `print_block_instructions`
call made during it, if any. -/
structure StepOut where
  state : SessionState
  halted : Bool
  block : Option String
deriving DecidableEq

/-- The QUICK AUTO-APPROVAL branch (`amount < 150`). -/
def autoApproveStep (s : SessionState) (t : TxInput) : StepOut :=
  { state := { s with
      spending_history := s.spending_history ++
        [{ amount := t.amount, merchant := "Low-Value Auto-Approved"
           hour := hourOf t.now, region := "ab" }]
      last_tx_time := some t.now
      last_region := some ("ab") }
    halted := lowerStr t.again != "yes"
    block := none }

/-- The tail of the failed-verification branch after the escalation `elif`s:
the `again` prompt, then (on "yes") the `last_tx_time` / `last_region`
update and `continue`. -/
def failCont (s : SessionState) (t : TxInput) : StepOut :=
  if lowerStr t.again ≠ "yes" then { state := s, halted := true, block := none }
  else
    { state := { s with last_tx_time := some t.now
                        last_region := some (t.region.getD ("unknown")) }
      halted := false, block := none }

/-- The `if not verified:` branch of `main`: increment `pin_fails` and
`flagged_count`, then the escalation `elif` chain on `pin_fails`
(3 → warning only; 5 → freeze and break; ≥7 → block and break;
otherwise fall through to the continuation prompt). -/
def failedVerificationStep (s : SessionState) (t : TxInput) : StepOut :=
  let sF := { s with pin_fails := s.pin_fails + 1, flagged_count := s.flagged_count + 1 }
  if sF.pin_fails = 3 then failCont sF t
  else if sF.pin_fails = 5 then
    { state := { sF with card_blocked := true }, halted := true, block := some ("frozen") }
  else if sF.pin_fails ≥ 7 then
    { state := { sF with card_blocked := true }, halted := true, block := some ("blocked") }
  else failCont sF t

/-- The tail of the loop body reached when verification passed or was not
required: update `last_tx_time` / `last_region`, append the history entry,
increment `flagged_count` when the decision is not "APPROVED", freeze when
`flagged_count >= 5`, otherwise the continuation prompt. -/
def normalCompletion (s : SessionState) (t : TxInput) (risk : ℚ) (merchant_label : String) :
    StepOut :=
  let s1 := { s with
    last_tx_time := some t.now
    last_region := some (t.region.getD ("unknown"))
    spending_history := s.spending_history ++
      [{ amount := t.amount, merchant := merchant_label
         hour := hourOf t.now, region := t.region.getD ("unknown") }] }
  let s2 := if decide risk ≠ "APPROVED"
    then { s1 with flagged_count := s1.flagged_count + 1 } else s1
  if s2.flagged_count ≥ 5 then
    { state := { s2 with card_blocked := true }, halted := true, block := some ("frozen") }
  else { state := s2, halted := lowerStr t.again != "yes", block := none }

/-- One full iteration of `main`'s `while True` loop body on a transaction. -/
def step (s : SessionState) (t : TxInput) : StepOut :=
  if t.amount < 150 then autoApproveStep s t
  else if verification_required s t then
    if run_verification t.amount (riskOf s t) t.responses then
      normalCompletion { s with pin_fails := 0 } t (riskOf s t) (merchant_label_of t)
    else failedVerificationStep s t
  else normalCompletion s t (riskOf s t) (merchant_label_of t)

/-- The result of running a whole session: final state, whether the loop has
exited, and the arguments of all `print_block_instructions` calls made. -/
structure RunOut where
  state : SessionState
  halted : Bool
  blocks : List String
deriving DecidableEq

/-- `main`'s loop driven by a list of per-transaction inputs: the
`if card_blocked: break` guard at the top, then one `step` per input,
stopping when a step breaks out. -/
def runList (s : SessionState) : List TxInput → RunOut
  | [] => { state := s, halted := false, blocks := [] }
  | t :: ts =>
      if s.card_blocked then { state := s, halted := true, blocks := [] }
      else
        let o := step s t
        if o.halted then { state := o.state, halted := true, blocks := o.block.toList }
        else
          let r := runList o.state ts
          { state := r.state, halted := r.halted, blocks := o.block.toList ++ r.blocks }

/-! ### Evaluation lemmas: the score component of each factor -/

theorem add_amount_zone_risk_fst (amount : ℚ) (reasons : List String) :
    (add_amount_zone_risk amount reasons).1 =
      if amount ≤ 500 then 0.0 else if amount ≤ 2000 then 0.10 else if amount ≤ 5000 then 0.20
      else if amount ≤ 10000 then 0.30 else if amount ≤ 20000 then 0.40 else 0.50 := by
  unfold add_amount_zone_risk
  split_ifs <;> rfl

theorem add_location_risk_fst (region : Option String) (reasons : List String) :
    (add_location_risk region reasons).1 = if region ≠ some ("ab") then 0.30 else 0.0 := by
  unfold add_location_risk
  split_ifs <;> rfl

theorem add_unknown_location_risk_fst (known_location : Bool) (reasons : List String) :
    (add_unknown_location_risk known_location reasons).1 = if !known_location then 0.10 else 0.0 := by
  unfold add_unknown_location_risk
  split_ifs <;> rfl

theorem add_time_of_day_risk_fst (hour : ℕ) (reasons : List String) :
    (add_time_of_day_risk hour reasons).1 = if hour < 5 then 0.10 else 0.0 := by
  unfold add_time_of_day_risk
  split_ifs <;> rfl

theorem add_merchant_risk_fst (merchant_choice : String) (reasons : List String) :
    (add_merchant_risk merchant_choice reasons).1 = (merchantPair merchant_choice).2 := rfl

theorem add_velocity_risk_fst (last_tx_time : Option ℚ) (now : ℚ) (reasons : List String) :
    (add_velocity_risk last_tx_time now reasons).1 =
      match last_tx_time with
      | none => 0.0
      | some prev => if now - prev ≤ 60 then 0.15 else 0.0 := by
  unfold add_velocity_risk
  cases last_tx_time <;> dsimp only <;> split_ifs <;> rfl

theorem add_location_jump_risk_fst (last_region region : Option String) (reasons : List String) :
    (add_location_jump_risk last_region region reasons).1 =
      match last_region with
      | none => 0.0
      | some prev => if region.getD ("unknown") ≠ prev then 0.10 else 0.0 := by
  unfold add_location_jump_risk
  cases last_region <;> dsimp only <;> split_ifs <;> rfl

theorem add_behavioral_risk_fst (history : List HistEntry) (amount : ℚ) (merchant_label : String)
    (hour : ℕ) (region : String) (reasons : List String) :
    (add_behavioral_risk history amount merchant_label hour region reasons).1 =
      match analyze_spending_patterns history with
      | none => 0.0
      | some patterns =>
          (if amount > patterns.avg_amount * 3 then 0.20 else 0.0) +
          (if merchant_label ≠ patterns.frequent_merchant then 0.10 else 0.0) +
          (if |(hour : ℚ) - patterns.avg_hour| > 6 then 0.10 else 0.0) +
          (if region ≠ patterns.frequent_region then 0.10 else 0.0) := by
  unfold add_behavioral_risk
  cases analyze_spending_patterns history
  · rfl
  · dsimp only
    split_ifs <;> norm_num

/-! ### Non-negativity of every factor contribution -/

theorem add_amount_zone_risk_nonneg (amount : ℚ) (reasons : List String) :
    0 ≤ (add_amount_zone_risk amount reasons).1 := by
  rw [add_amount_zone_risk_fst]
  split_ifs <;> norm_num

theorem add_location_risk_nonneg (region : Option String) (reasons : List String) :
    0 ≤ (add_location_risk region reasons).1 := by
  rw [add_location_risk_fst]
  split_ifs <;> norm_num

theorem add_unknown_location_risk_nonneg (known_location : Bool) (reasons : List String) :
    0 ≤ (add_unknown_location_risk known_location reasons).1 := by
  rw [add_unknown_location_risk_fst]
  split_ifs <;> norm_num

theorem add_time_of_day_risk_nonneg (hour : ℕ) (reasons : List String) :
    0 ≤ (add_time_of_day_risk hour reasons).1 := by
  rw [add_time_of_day_risk_fst]
  split_ifs <;> norm_num

theorem merchantPair_nonneg (choice : String) : 0 ≤ (merchantPair choice).2 := by
  unfold merchantPair
  split_ifs <;> norm_num

theorem add_merchant_risk_nonneg (merchant_choice : String) (reasons : List String) :
    0 ≤ (add_merchant_risk merchant_choice reasons).1 := by
  rw [add_merchant_risk_fst]
  exact merchantPair_nonneg merchant_choice

theorem add_velocity_risk_nonneg (last_tx_time : Option ℚ) (now : ℚ) (reasons : List String) :
    0 ≤ (add_velocity_risk last_tx_time now reasons).1 := by
  rw [add_velocity_risk_fst]
  cases last_tx_time <;> dsimp only
  · norm_num
  · split_ifs <;> norm_num

theorem add_location_jump_risk_nonneg (last_region region : Option String) (reasons : List String) :
    0 ≤ (add_location_jump_risk last_region region reasons).1 := by
  rw [add_location_jump_risk_fst]
  cases last_region <;> dsimp only
  · norm_num
  · split_ifs <;> norm_num

theorem add_behavioral_risk_nonneg (history : List HistEntry) (amount : ℚ)
    (merchant_label : String) (hour : ℕ) (region : String) (reasons : List String) :
    0 ≤ (add_behavioral_risk history amount merchant_label hour region reasons).1 := by
  rw [add_behavioral_risk_fst]
  cases analyze_spending_patterns history <;> dsimp only
  · norm_num
  · split_ifs <;> norm_num

/-- C2: for every transaction that goes through the full risk pipeline, the
composite risk score equals `min(1.0, Σ of the eight factor contributions)`,
each individual factor contribution is non-negative, and the final score
lies in `[0, 1]`. -/
theorem C2_composite_score_clamp (s : SessionState) (t : TxInput) :
    riskOf s t =
      min 1.0
        ((add_amount_zone_risk t.amount []).1 + (add_location_risk t.region []).1 +
         (add_unknown_location_risk t.known_location []).1 +
         (add_time_of_day_risk (hourOf t.now) []).1 +
         (add_merchant_risk (merchant_choice_norm t) []).1 +
         (add_velocity_risk s.last_tx_time t.now []).1 +
         (add_location_jump_risk s.last_region t.region []).1 +
         (add_behavioral_risk s.spending_history t.amount (merchant_label_of t) (hourOf t.now)
            (t.region.getD ("unknown")) []).1) ∧
    (0 ≤ (add_amount_zone_risk t.amount []).1 ∧ 0 ≤ (add_location_risk t.region []).1 ∧
     0 ≤ (add_unknown_location_risk t.known_location []).1 ∧
     0 ≤ (add_time_of_day_risk (hourOf t.now) []).1 ∧
     0 ≤ (add_merchant_risk (merchant_choice_norm t) []).1 ∧
     0 ≤ (add_velocity_risk s.last_tx_time t.now []).1 ∧
     0 ≤ (add_location_jump_risk s.last_region t.region []).1 ∧
     0 ≤ (add_behavioral_risk s.spending_history t.amount (merchant_label_of t) (hourOf t.now)
            (t.region.getD ("unknown")) []).1) ∧
    0 ≤ riskOf s t ∧ riskOf s t ≤ 1 := by
  refine ⟨?_,
    ⟨add_amount_zone_risk_nonneg _ _, add_location_risk_nonneg _ _,
     add_unknown_location_risk_nonneg _ _, add_time_of_day_risk_nonneg _ _,
     add_merchant_risk_nonneg _ _, add_velocity_risk_nonneg _ _ _,
     add_location_jump_risk_nonneg _ _ _, add_behavioral_risk_nonneg _ _ _ _ _ _⟩, ?_, ?_⟩
  · unfold riskOf computeRisk
    dsimp only
    simp only [add_amount_zone_risk_fst, add_location_risk_fst, add_unknown_location_risk_fst,
      add_time_of_day_risk_fst, add_merchant_risk_fst, add_velocity_risk_fst,
      add_location_jump_risk_fst, add_behavioral_risk_fst]
    rw [min_comm]
    congr 1
    ring
  · unfold riskOf computeRisk
    dsimp only
    refine le_min ?_ (by norm_num)
    refine add_nonneg (add_nonneg (add_nonneg (add_nonneg (add_nonneg (add_nonneg (add_nonneg
      (add_nonneg (by norm_num) (add_amount_zone_risk_nonneg _ _)) (add_location_risk_nonneg _ _))
      (add_unknown_location_risk_nonneg _ _)) (add_time_of_day_risk_nonneg _ _))
      (add_merchant_risk_nonneg _ _)) (add_velocity_risk_nonneg _ _ _))
      (add_location_jump_risk_nonneg _ _ _)) (add_behavioral_risk_nonneg _ _ _ _ _ _)
  · unfold riskOf computeRisk
    dsimp only
    exact le_trans (min_le_right _ _) (by norm_num)

/-- C7: for every positive amount, the amount-zone factor contributes exactly
the tabulated value of its band (≤500 → 0; 501–2000 → 0.10; 2001–5000 → 0.20;
5001–10000 → 0.30; 10001–20000 → 0.40; above 20000 → 0.50), the bands are
mutually exclusive, and the table is matched exactly at band boundaries
(2000 is still in the 0.10 band, 2001 in the 0.20 band). -/
theorem C7_amount_zone_bands (amount : ℚ) (reasons : List String) (hpos : 0 < amount) :
    ((amount ≤ 500 → (add_amount_zone_risk amount reasons).1 = 0) ∧
     (500 < amount → amount ≤ 2000 → (add_amount_zone_risk amount reasons).1 = 0.10) ∧
     (2000 < amount → amount ≤ 5000 → (add_amount_zone_risk amount reasons).1 = 0.20) ∧
     (5000 < amount → amount ≤ 10000 → (add_amount_zone_risk amount reasons).1 = 0.30) ∧
     (10000 < amount → amount ≤ 20000 → (add_amount_zone_risk amount reasons).1 = 0.40) ∧
     (20000 < amount → (add_amount_zone_risk amount reasons).1 = 0.50)) ∧
    (add_amount_zone_risk 2000 reasons).1 = 0.10 ∧
    (add_amount_zone_risk 2001 reasons).1 = 0.20 := by
  refine ⟨⟨?_, ?_, ?_, ?_, ?_, ?_⟩, ?_, ?_⟩ <;>
    rw [add_amount_zone_risk_fst]
  · intro h
    rw [if_pos h]
    norm_num
  · intro h1 h2
    rw [if_neg (by linarith), if_pos h2]
  · intro h1 h2
    rw [if_neg (by linarith), if_neg (by linarith), if_pos h2]
  · intro h1 h2
    rw [if_neg (by linarith), if_neg (by linarith), if_neg (by linarith), if_pos h2]
  · intro h1 h2
    rw [if_neg (by linarith), if_neg (by linarith), if_neg (by linarith), if_neg (by linarith),
      if_pos h2]
  · intro h1
    rw [if_neg (by linarith), if_neg (by linarith), if_neg (by linarith), if_neg (by linarith),
      if_neg (by linarith)]
  · norm_num
  · norm_num

/-- Witness for C7: the theorem applied at amount 2001, reasons `[]`;
2001 falls in the 0.20 band. -/
theorem C7_amount_zone_bands_witness : (add_amount_zone_risk 2001 []).1 = 0.20 :=
  (C7_amount_zone_bands 2001 [] (by norm_num)).2.2

/-- C8: with fewer than 5 history entries the behavioral factor contributes
exactly 0 and emits no reason; with 5 or more entries the profile exists and
the contribution is the unclamped sum of the triggered deviation sub-checks,
in order: amount > 3×avg → +0.20, merchant ≠ dominant → +0.10,
|hour − avg hour| > 6 → +0.10, region ≠ dominant → +0.10. -/
theorem C8_behavioral_gate (history : List HistEntry) (amount : ℚ) (merchant_label : String)
    (hour : ℕ) (region : String) (reasons : List String) :
    (history.length < 5 →
      add_behavioral_risk history amount merchant_label hour region reasons = (0.0, reasons)) ∧
    (5 ≤ history.length → ∃ patterns, analyze_spending_patterns history = some patterns) ∧
    (∀ patterns, analyze_spending_patterns history = some patterns →
      (add_behavioral_risk history amount merchant_label hour region reasons).1 =
        (if amount > patterns.avg_amount * 3 then 0.20 else 0.0) +
        (if merchant_label ≠ patterns.frequent_merchant then 0.10 else 0.0) +
        (if |(hour : ℚ) - patterns.avg_hour| > 6 then 0.10 else 0.0) +
        (if region ≠ patterns.frequent_region then 0.10 else 0.0)) := by
  refine ⟨?_, ?_, ?_⟩
  · intro h
    have hn : analyze_spending_patterns history = none := by
      unfold analyze_spending_patterns
      rw [if_pos h]
    unfold add_behavioral_risk
    rw [hn]
  · intro h
    unfold analyze_spending_patterns
    rw [if_neg (by omega)]
    exact ⟨_, rfl⟩
  · intro patterns hp
    rw [add_behavioral_risk_fst, hp]

/-- A 5-entry history used to instantiate the behavioral-factor theorem. -/
def hist5 : List HistEntry :=
  [{ amount := 100, merchant := "A", hour := 10, region := "ab" },
   { amount := 100, merchant := "A", hour := 10, region := "ab" },
   { amount := 100, merchant := "A", hour := 10, region := "ab" },
   { amount := 100, merchant := "A", hour := 10, region := "ab" },
   { amount := 100, merchant := "A", hour := 10, region := "ab" }]

/-- Witness for C8: on a 5-entry history (avg amount 100, dominant merchant
"A", avg hour 10, dominant region "ab"), the contribution formula holds. -/
theorem C8_behavioral_gate_witness :
    (add_behavioral_risk hist5 400 ("B") 10 ("ab") []).1 =
      (if (400 : ℚ) > 100 * 3 then 0.20 else 0.0) +
      (if ("B") ≠ ("A") then 0.10 else 0.0) +
      (if |((10 : ℕ) : ℚ) - 10| > 6 then 0.10 else 0.0) +
      (if ("ab") ≠ ("ab") then 0.10 else 0.0) :=
  (C8_behavioral_gate hist5 400 ("B") 10 ("ab") []).2.2 ⟨100, ("A"), 10, ("ab")⟩ (by
    norm_num [analyze_spending_patterns, hist5, mode, List.count, List.countP])

/-- C5: verification is triggered iff `amount > 1000 ∨ score ≥ 0.50`; tier
selection evaluates strictest first (FULL, then MID/PARTIAL, then PIN-only,
else a vacuous pass), and a transaction qualifying for PIN-only but not for
the MID tier is routed to the PIN-only challenge, never to MID or FULL. -/
theorem C5_trigger_and_tier_selection (s : SessionState) (t : TxInput) (amount risk : ℚ)
    (r : Responses) :
    (verification_required s t ↔ t.amount > 1000 ∨ riskOf s t ≥ 0.50) ∧
    (run_verification amount risk r =
      match selectTier amount risk with
      | .full => full_tier r
      | .mid => mid_tier r
      | .pinOnly => pin_tier r
      | .noTier => true) ∧
    (selectTier amount risk = .full ↔ amount > 5000 ∨ risk ≥ 0.90) ∧
    (selectTier amount risk = .mid ↔
      (¬(amount > 5000 ∨ risk ≥ 0.90) ∧ (amount > 2000 ∨ risk ≥ 0.70))) ∧
    (selectTier amount risk = .pinOnly ↔
      (¬(amount > 2000 ∨ risk ≥ 0.70) ∧ (amount > 1000 ∨ risk ≥ 0.50))) ∧
    ((amount > 1000 ∨ risk ≥ 0.50) → ¬(amount > 2000 ∨ risk ≥ 0.70) →
      selectTier amount risk = .pinOnly ∧ run_verification amount risk r = pin_tier r) ∧
    (¬(amount > 1000 ∨ risk ≥ 0.50) → run_verification amount risk r = true) := by
  have hfm : (amount > 5000 ∨ risk ≥ 0.90) → (amount > 2000 ∨ risk ≥ 0.70) := by
    rintro (h | h)
    · exact Or.inl (by linarith)
    · exact Or.inr (by linarith)
  have hmp : (amount > 2000 ∨ risk ≥ 0.70) → (amount > 1000 ∨ risk ≥ 0.50) := by
    rintro (h | h)
    · exact Or.inl (by linarith)
    · exact Or.inr (by linarith)
  refine ⟨Iff.rfl, ?_, ?_, ?_, ?_, ?_, ?_⟩
  · unfold run_verification selectTier
    split_ifs <;> rfl
  · unfold selectTier
    split_ifs with h1 h2 h3 <;> simp_all
  · unfold selectTier
    split_ifs with h1 h2 h3 <;> simp_all
  · unfold selectTier
    split_ifs with h1 h2 h3 <;> simp_all
  · intro hpin hmid
    have hfull : ¬(amount > 5000 ∨ risk ≥ 0.90) := fun h => hmid (hfm h)
    constructor
    · unfold selectTier
      rw [if_neg hfull, if_neg hmid, if_pos hpin]
    · unfold run_verification
      rw [if_neg hfull, if_neg hmid, if_pos hpin]
  · intro hno
    unfold run_verification
    rw [if_neg (fun h => hno (hmp (hfm h))), if_neg (fun h => hno (hmp h)), if_neg hno]

/-- Witness for C5: amount 1500 with risk 0.40 qualifies for PIN-only but not
for the MID tier, and is routed to the PIN-only challenge. -/
theorem C5_trigger_and_tier_selection_witness :
    selectTier 1500 0.40 = .pinOnly ∧
    run_verification 1500 0.40
      { last_name := "", dob := "", cvv := "", pin := "1234", mid_choice := "" } =
      pin_tier { last_name := "", dob := "", cvv := "", pin := "1234", mid_choice := "" } :=
  (C5_trigger_and_tier_selection initState
    { amount := 1500, now := 0, region := none, known_location := false, loc_reason := ""
      merchant_choice := "1"
      responses := { last_name := "", dob := "", cvv := "", pin := "1234", mid_choice := "" }
      again := "yes" }
    1500 0.40
    { last_name := "", dob := "", cvv := "", pin := "1234", mid_choice := "" }).2.2.2.2.2.1
    (by norm_num) (by push_neg; constructor <;> norm_num)

/-- C6: in the FULL tier the four challenges are issued in the strict order
surname (case-insensitive), date of birth, security code, PIN; the first
mismatch fails immediately without asking the remaining fields, and the tier
passes exactly when all four fields match. -/
theorem C6_full_tier_sequence (r : Responses) :
    ((full_tier_trace r).2 = true ↔
      (lowerStr (trimStr r.last_name) = lowerStr SIM_LAST_NAME ∧ trimStr r.dob = SIM_DOB ∧
       trimStr r.cvv = SIM_CVV ∧ trimStr r.pin = CORRECT_PIN)) ∧
    (lowerStr (trimStr r.last_name) ≠ lowerStr SIM_LAST_NAME →
      full_tier_trace r = ([.last_name], false)) ∧
    (lowerStr (trimStr r.last_name) = lowerStr SIM_LAST_NAME → trimStr r.dob ≠ SIM_DOB →
      full_tier_trace r = ([.last_name, .dob], false)) ∧
    (lowerStr (trimStr r.last_name) = lowerStr SIM_LAST_NAME → trimStr r.dob = SIM_DOB →
      trimStr r.cvv ≠ SIM_CVV → full_tier_trace r = ([.last_name, .dob, .cvv], false)) ∧
    (lowerStr (trimStr r.last_name) = lowerStr SIM_LAST_NAME → trimStr r.dob = SIM_DOB →
      trimStr r.cvv = SIM_CVV → trimStr r.pin ≠ CORRECT_PIN →
      full_tier_trace r = ([.last_name, .dob, .cvv, .pin], false)) ∧
    (lowerStr (trimStr r.last_name) = lowerStr SIM_LAST_NAME → trimStr r.dob = SIM_DOB →
      trimStr r.cvv = SIM_CVV → trimStr r.pin = CORRECT_PIN →
      full_tier_trace r = ([.last_name, .dob, .cvv, .pin], true)) := by
  unfold full_tier_trace
  split_ifs <;> simp_all

/-- Witness for C6: a response with the correct surname but a wrong date of
birth aborts after the DOB challenge; the CVV and PIN are never asked. -/
theorem C6_full_tier_sequence_witness :
    full_tier_trace
      { last_name := "Wahdan", dob := "2000-01-01", cvv := "123", pin := "1234",
        mid_choice := "" } = ([.last_name, .dob], false) :=
  (C6_full_tier_sequence
    { last_name := "Wahdan", dob := "2000-01-01", cvv := "123", pin := "1234",
      mid_choice := "" }).2.2.1 (by decide) (by decide)

/-! ### Branch characterizations of the session step -/

theorem step_auto (s : SessionState) (t : TxInput) (h : t.amount < 150) :
    step s t = autoApproveStep s t := by
  unfold step
  rw [if_pos h]

theorem step_no_verification (s : SessionState) (t : TxInput) (h150 : ¬t.amount < 150)
    (hreq : ¬verification_required s t) :
    step s t = normalCompletion s t (riskOf s t) (merchant_label_of t) := by
  unfold step
  rw [if_neg h150, if_neg hreq]

theorem step_verified (s : SessionState) (t : TxInput) (h150 : ¬t.amount < 150)
    (hreq : verification_required s t)
    (hv : run_verification t.amount (riskOf s t) t.responses = true) :
    step s t = normalCompletion { s with pin_fails := 0 } t (riskOf s t) (merchant_label_of t) := by
  unfold step
  rw [if_neg h150, if_pos hreq, if_pos hv]

theorem step_failed (s : SessionState) (t : TxInput) (h150 : ¬t.amount < 150)
    (hreq : verification_required s t)
    (hv : run_verification t.amount (riskOf s t) t.responses = false) :
    step s t = failedVerificationStep s t := by
  unfold step
  rw [if_neg h150, if_pos hreq, if_neg (by simp [hv])]

theorem normalCompletion_pin (s : SessionState) (t : TxInput) (risk : ℚ) (label : String) :
    (normalCompletion s t risk label).state.pin_fails = s.pin_fails := by
  unfold normalCompletion
  dsimp only
  split_ifs <;> rfl

theorem normalCompletion_history (s : SessionState) (t : TxInput) (risk : ℚ) (label : String) :
    (normalCompletion s t risk label).state.spending_history =
      s.spending_history ++
        [{ amount := t.amount, merchant := label, hour := hourOf t.now
           region := t.region.getD ("unknown") }] := by
  unfold normalCompletion
  dsimp only
  split_ifs <;> rfl

theorem normalCompletion_flagged (s : SessionState) (t : TxInput) (risk : ℚ) (label : String) :
    (normalCompletion s t risk label).state.flagged_count =
      s.flagged_count + (if decide risk ≠ "APPROVED" then 1 else 0) := by
  unfold normalCompletion
  dsimp only
  split_ifs <;> simp

theorem normalCompletion_last (s : SessionState) (t : TxInput) (risk : ℚ) (label : String) :
    (normalCompletion s t risk label).state.last_tx_time = some t.now ∧
    (normalCompletion s t risk label).state.last_region = some (t.region.getD ("unknown")) := by
  unfold normalCompletion
  dsimp only
  split_ifs <;> exact ⟨rfl, rfl⟩

theorem normalCompletion_block_ne_blocked (s : SessionState) (t : TxInput) (risk : ℚ)
    (label : String) : (normalCompletion s t risk label).block ≠ some ("blocked") := by
  unfold normalCompletion
  dsimp only
  split_ifs <;> simp

theorem normalCompletion_freeze (s : SessionState) (t : TxInput) (risk : ℚ) (label : String)
    (h : (normalCompletion s t risk label).state.flagged_count ≥ 5) :
    (normalCompletion s t risk label).halted = true ∧
    (normalCompletion s t risk label).state.card_blocked = true ∧
    (normalCompletion s t risk label).block = some ("frozen") := by
  revert h
  unfold normalCompletion
  dsimp only
  split_ifs <;> simp_all

theorem normalCompletion_no_freeze (s : SessionState) (t : TxInput) (risk : ℚ) (label : String)
    (h : (normalCompletion s t risk label).state.flagged_count < 5) :
    (normalCompletion s t risk label).block = none ∧
    (normalCompletion s t risk label).state.card_blocked = s.card_blocked := by
  revert h
  unfold normalCompletion
  dsimp only
  split_ifs <;> simp_all

theorem failedVerificationStep_counters (s : SessionState) (t : TxInput) :
    (failedVerificationStep s t).state.pin_fails = s.pin_fails + 1 ∧
    (failedVerificationStep s t).state.flagged_count = s.flagged_count + 1 ∧
    (failedVerificationStep s t).state.spending_history = s.spending_history := by
  unfold failedVerificationStep failCont
  dsimp only
  split_ifs <;> exact ⟨rfl, rfl, rfl⟩

theorem failedVerificationStep_warn (s : SessionState) (t : TxInput)
    (h3 : s.pin_fails + 1 = 3) :
    (failedVerificationStep s t).state.card_blocked = s.card_blocked ∧
    (failedVerificationStep s t).block = none := by
  unfold failedVerificationStep failCont
  dsimp only
  rw [if_pos h3]
  split_ifs <;> exact ⟨rfl, rfl⟩

theorem failedVerificationStep_freeze (s : SessionState) (t : TxInput)
    (h5 : s.pin_fails + 1 = 5) :
    (failedVerificationStep s t).state.card_blocked = true ∧
    (failedVerificationStep s t).halted = true ∧
    (failedVerificationStep s t).block = some ("frozen") := by
  unfold failedVerificationStep
  dsimp only
  rw [if_neg (by omega), if_pos h5]
  exact ⟨rfl, rfl, rfl⟩

theorem failedVerificationStep_cont (s : SessionState) (t : TxInput)
    (h : (failedVerificationStep s t).halted = false) :
    (failedVerificationStep s t).state.last_tx_time = some t.now ∧
    (failedVerificationStep s t).state.last_region = some (t.region.getD ("unknown")) ∧
    (failedVerificationStep s t).state.card_blocked = s.card_blocked := by
  revert h
  unfold failedVerificationStep failCont
  dsimp only
  split_ifs <;> simp_all

theorem failedVerificationStep_halt (s : SessionState) (t : TxInput)
    (h : (failedVerificationStep s t).halted = true) :
    (failedVerificationStep s t).state.last_tx_time = s.last_tx_time ∧
    (failedVerificationStep s t).state.last_region = s.last_region := by
  revert h
  unfold failedVerificationStep failCont
  dsimp only
  split_ifs <;> simp_all

theorem failedVerificationStep_bound (s : SessionState) (t : TxInput)
    (h : s.pin_fails ≤ 4) :
    (failedVerificationStep s t).block ≠ some ("blocked") ∧
    (failedVerificationStep s t).state.pin_fails ≤ 5 ∧
    ((failedVerificationStep s t).halted = false →
      (failedVerificationStep s t).state.pin_fails ≤ 4) := by
  unfold failedVerificationStep failCont
  dsimp only
  split_ifs <;> simp_all <;> omega

theorem autoApproveStep_state (s : SessionState) (t : TxInput) :
    (autoApproveStep s t).state.pin_fails = s.pin_fails ∧
    (autoApproveStep s t).state.flagged_count = s.flagged_count ∧
    (autoApproveStep s t).state.card_blocked = s.card_blocked ∧
    (autoApproveStep s t).block = none ∧
    (autoApproveStep s t).state.spending_history = s.spending_history ++
      [{ amount := t.amount, merchant := "Low-Value Auto-Approved", hour := hourOf t.now
         region := "ab" }] := by
  unfold autoApproveStep
  exact ⟨rfl, rfl, rfl, rfl, rfl⟩

theorem failedVerificationStep_frozen_imp (s : SessionState) (t : TxInput)
    (h : (failedVerificationStep s t).block = some ("frozen")) : s.pin_fails + 1 = 5 := by
  revert h
  unfold failedVerificationStep failCont
  dsimp only
  split_ifs <;> simp_all

theorem runList_blocked (s2 : SessionState) (h : s2.card_blocked = true) (t : TxInput)
    (ts : List TxInput) :
    runList s2 (t :: ts) = { state := s2, halted := true, blocks := [] } := by
  unfold runList
  rw [if_pos h]

/-- One step keeps `pin_fails` within its invariant bounds and never executes
the BLOCKED (`pin_fails ≥ 7`) branch. -/
theorem step_bound (s : SessionState) (t : TxInput) (h : s.pin_fails ≤ 4) :
    (step s t).block ≠ some ("blocked") ∧ (step s t).state.pin_fails ≤ 5 ∧
    ((step s t).halted = false → (step s t).state.pin_fails ≤ 4) := by
  by_cases h150 : t.amount < 150
  · rw [step_auto s t h150]
    obtain ⟨hp, _, _, hb, _⟩ := autoApproveStep_state s t
    rw [hp, hb]
    exact ⟨by simp, by omega, fun _ => h⟩
  · by_cases hreq : verification_required s t
    · cases hv : run_verification t.amount (riskOf s t) t.responses
      · rw [step_failed s t h150 hreq hv]
        exact failedVerificationStep_bound s t h
      · rw [step_verified s t h150 hreq hv]
        rw [normalCompletion_pin]
        exact ⟨normalCompletion_block_ne_blocked _ _ _ _, by dsimp only; omega,
          fun _ => by dsimp only; omega⟩
    · rw [step_no_verification s t h150 hreq]
      rw [normalCompletion_pin]
      exact ⟨normalCompletion_block_ne_blocked _ _ _ _, by omega, fun _ => h⟩

/-- Session-level invariant: starting from any state with `pin_fails ≤ 4`,
the BLOCKED instructions are never printed, `pin_fails` never exceeds 5, and
every non-halted state keeps `pin_fails ≤ 4`. -/
theorem runList_bound (txs : List TxInput) :
    ∀ s : SessionState, s.pin_fails ≤ 4 →
      ("blocked") ∉ (runList s txs).blocks ∧ (runList s txs).state.pin_fails ≤ 5 ∧
      ((runList s txs).halted = false → (runList s txs).state.pin_fails ≤ 4) := by
  induction txs with
  | nil =>
      intro s h
      unfold runList
      exact ⟨by simp, by dsimp only; omega, fun _ => h⟩
  | cons t ts ih =>
      intro s h
      unfold runList
      by_cases hb : s.card_blocked
      · rw [if_pos hb]
        exact ⟨by simp, by dsimp only; omega, by simp⟩
      · rw [if_neg hb]
        dsimp only
        obtain ⟨b1, b2, b3⟩ := step_bound s t h
        by_cases hh : (step s t).halted
        · rw [if_pos hh]
          refine ⟨?_, b2, by simp⟩
          cases hblk : (step s t).block with
          | none => simp [hblk]
          | some b =>
              simp only [hblk, Option.toList_some, List.mem_singleton]
              intro hcontra
              exact b1 (by rw [hblk, hcontra])
        · rw [if_neg hh]
          dsimp only
          have h4 : (step s t).state.pin_fails ≤ 4 := b3 (by simpa using hh)
          obtain ⟨c1, c2, c3⟩ := ih (step s t).state h4
          refine ⟨?_, c2, c3⟩
          intro hmem
          rcases List.mem_append.mp hmem with hm | hm
          · cases hblk : (step s t).block with
            | none => rw [hblk] at hm; simp at hm
            | some b =>
                rw [hblk] at hm
                simp only [Option.toList_some, List.mem_singleton] at hm
                exact b1 (by rw [hblk, hm])
          · exact c1 hm

/-- C3: after every verification failure the escalation automaton behaves as
a counter machine: at `pin_fails` exactly 3 only a warning is printed and the
account is not blocked; at exactly 5 the account freezes and the loop
breaks; and from any blocked state no further transaction is processed. -/
theorem C3_pin_escalation (s : SessionState) (t : TxInput) (hb : s.card_blocked = false)
    (h150 : ¬t.amount < 150) (hreq : verification_required s t)
    (hv : run_verification t.amount (riskOf s t) t.responses = false) :
    ((s.pin_fails + 1 = 3 →
        (step s t).state.card_blocked = false ∧ (step s t).block = none) ∧
     (s.pin_fails + 1 = 5 →
        (step s t).state.card_blocked = true ∧ (step s t).halted = true ∧
        (step s t).block = some ("frozen"))) ∧
    (∀ s2 : SessionState, s2.card_blocked = true → ∀ t2 : TxInput, ∀ ts : List TxInput,
        runList s2 (t2 :: ts) = { state := s2, halted := true, blocks := [] }) := by
  rw [step_failed s t h150 hreq hv]
  refine ⟨⟨?_, ?_⟩, fun s2 h2 t2 ts => runList_blocked s2 h2 t2 ts⟩
  · intro h3
    obtain ⟨hc, hblk⟩ := failedVerificationStep_warn s t h3
    rw [hc, hb]
    exact ⟨rfl, hblk⟩
  · intro h5
    exact failedVerificationStep_freeze s t h5

/-- C9: in every reachable session state `pin_fails` stays below 7, the
BLOCKED (`pin_fails ≥ 7`) branch never executes (its instructions are never
printed), and every non-halted reachable state has `pin_fails ≤ 4`: the
BLOCKED branch is dead code under the current thresholds. -/
theorem C9_blocked_branch_unreachable (txs : List TxInput) :
    ("blocked") ∉ (runList initState txs).blocks ∧
    (runList initState txs).state.pin_fails < 7 ∧
    ((runList initState txs).halted = false →
      (runList initState txs).state.pin_fails ≤ 4) := by
  obtain ⟨h1, h2, h3⟩ := runList_bound txs initState (by norm_num [initState])
  exact ⟨h1, by omega, h3⟩

/-- Witness for C9: the empty session is non-halted, and the theorem bounds
its `pin_fails` by 4. -/
theorem C9_blocked_branch_unreachable_witness :
    (runList initState []).state.pin_fails ≤ 4 :=
  (C9_blocked_branch_unreachable []).2.2 rfl

/-! ### Concrete transactions used by counterexamples and witnesses -/

/-- A transaction above the PIN-only threshold whose PIN response is wrong:
amount 1500, region "on", groceries, 10:00, risk 0.40, continuation "yes". -/
def cxFail (k : ℚ) : TxInput :=
  { amount := 1500, now := 36000 + 3600 * k, region := some ("on"), known_location := true
    loc_reason := "Valid world subdivision/state", merchant_choice := "1"
    responses := { last_name := "", dob := "", cvv := "", pin := "0000", mid_choice := "" }
    again := "yes" }

/-- A transaction with risk 0.70 (gift cards, outside Alberta) that passes
the MID-tier verification with correct PIN and surname; its decision is
"APPROVED (FLAGGED)". -/
def cxPass (k : ℚ) : TxInput :=
  { amount := 1500, now := 36000 + 3600 * k, region := some ("on"), known_location := true
    loc_reason := "Valid world subdivision/state", merchant_choice := "6"
    responses := { last_name := "Wahdan", dob := "1990-05-14", cvv := "123", pin := "1234"
                   mid_choice := "1" }
    again := "yes" }

/-- A state with four verification failures already recorded. -/
def c3s4 : SessionState := { initState with pin_fails := 4 }

/-- Witness for C3: from a state with `pin_fails = 4`, a fifth failed
verification freezes the card and halts the session. -/
theorem C3_pin_escalation_witness :
    (step c3s4 (cxFail 0)).state.card_blocked = true ∧
    (step c3s4 (cxFail 0)).halted = true ∧
    (step c3s4 (cxFail 0)).block = some ("frozen") :=
  ((C3_pin_escalation c3s4 (cxFail 0) rfl (by norm_num [cxFail])
    (Or.inl (by norm_num [cxFail]))
    (by norm_num +decide [c3s4, initState, cxFail, verification_required, riskOf, computeRisk,
      add_amount_zone_risk, add_location_risk, add_unknown_location_risk, add_time_of_day_risk,
      add_merchant_risk, merchantPair, add_velocity_risk, add_location_jump_risk,
      add_behavioral_risk, analyze_spending_patterns, run_verification, full_tier_trace,
      full_tier, mid_tier, pin_tier, lowerStr, trimStr, hourOf, merchant_choice_norm,
      merchant_label_of, merchantKeys, min_def, CORRECT_PIN, SIM_LAST_NAME, SIM_DOB, SIM_CVV,
      Rat.floor])).1).2 rfl

/-- Four flagged-but-approved transactions followed by one failed
verification. -/
def c1Txs : List TxInput := [cxPass 0, cxPass 1, cxPass 2, cxPass 3, cxFail 4]

/-- The session state after the four passed transactions of `c1Txs`. -/
def c1s4 : SessionState :=
  (runList initState [cxPass 0, cxPass 1, cxPass 2, cxPass 3]).state

/-- Counterexample to C1: starting from the reachable state `c1s4` with
`flagged_count = 4`, a transaction whose verification fails raises
`flagged_count` to 5, yet the session neither freezes nor halts — the
flagged-count check is skipped on the failed-verification path, so a
reachable, non-halted state with `flagged_count ≥ 5` exists. -/
theorem C1_counterexample :
    c1s4.flagged_count = 4 ∧
    verification_required c1s4 (cxFail 4) ∧
    run_verification (cxFail 4).amount (riskOf c1s4 (cxFail 4)) (cxFail 4).responses = false ∧
    (runList initState c1Txs).halted = false ∧
    (runList initState c1Txs).state.card_blocked = false ∧
    (runList initState c1Txs).state.flagged_count = 5 := by
  norm_num +decide [c1s4, c1Txs, runList, step, initState, cxFail, cxPass, autoApproveStep,
    failedVerificationStep, failCont, normalCompletion, verification_required, riskOf,
    computeRisk, add_amount_zone_risk, add_location_risk, add_unknown_location_risk,
    add_time_of_day_risk, add_merchant_risk, merchantPair, add_velocity_risk,
    add_location_jump_risk, add_behavioral_risk, analyze_spending_patterns, FraudEngine.decide,
    run_verification, full_tier_trace, full_tier, mid_tier, pin_tier, lowerStr, trimStr, hourOf,
    merchant_choice_norm, merchant_label_of, merchantKeys, min_def, CORRECT_PIN, SIM_LAST_NAME,
    SIM_DOB, SIM_CVV, Rat.floor]

/-- C1 amended: `flagged_count` increments on every transaction whose
decision ≠ APPROVED, including failed verifications; but the
`flagged_count ≥ 5` freeze check runs only when a transaction completes the
normal path (verification passed or not required) — after a failed
verification only the failure-count escalation is checked on that
transaction (a freeze there means `pin_fails` hit 5), so `flagged_count`
can reach 5 without freezing; the account then freezes on the next
transaction that completes the normal path. -/
theorem C1_flag_escalation (s : SessionState) (t : TxInput) :
    (¬t.amount < 150 → verification_required s t →
      run_verification t.amount (riskOf s t) t.responses = false →
      (step s t).state.flagged_count = s.flagged_count + 1 ∧
      ((step s t).block = some ("frozen") → s.pin_fails + 1 = 5)) ∧
    (¬t.amount < 150 → verification_required s t →
      run_verification t.amount (riskOf s t) t.responses = true →
      (step s t).state.flagged_count =
        s.flagged_count + (if decide (riskOf s t) ≠ "APPROVED" then 1 else 0) ∧
      ((step s t).state.flagged_count ≥ 5 →
        (step s t).halted = true ∧ (step s t).state.card_blocked = true ∧
        (step s t).block = some ("frozen")) ∧
      ((step s t).state.flagged_count < 5 → (step s t).block = none)) ∧
    (¬t.amount < 150 → ¬verification_required s t →
      (step s t).state.flagged_count =
        s.flagged_count + (if decide (riskOf s t) ≠ "APPROVED" then 1 else 0) ∧
      ((step s t).state.flagged_count ≥ 5 →
        (step s t).halted = true ∧ (step s t).state.card_blocked = true ∧
        (step s t).block = some ("frozen"))) := by
  refine ⟨?_, ?_, ?_⟩
  · intro h150 hreq hv
    rw [step_failed s t h150 hreq hv]
    exact ⟨(failedVerificationStep_counters s t).2.1, failedVerificationStep_frozen_imp s t⟩
  · intro h150 hreq hv
    rw [step_verified s t h150 hreq hv]
    refine ⟨?_, normalCompletion_freeze _ _ _ _,
      fun h => (normalCompletion_no_freeze _ _ _ _ h).1⟩
    rw [normalCompletion_flagged]
  · intro h150 hreq
    rw [step_no_verification s t h150 hreq]
    exact ⟨normalCompletion_flagged _ _ _ _, normalCompletion_freeze _ _ _ _⟩

/-- Witness for C1 (amended): a first failed verification increments
`flagged_count` to 1, and any freeze on that path would mean `pin_fails`
reached 5. -/
theorem C1_flag_escalation_witness :
    (step initState (cxFail 0)).state.flagged_count = initState.flagged_count + 1 ∧
    ((step initState (cxFail 0)).block = some ("frozen") → initState.pin_fails + 1 = 5) :=
  (C1_flag_escalation initState (cxFail 0)).1 (by norm_num [cxFail])
    (Or.inl (by norm_num [cxFail]))
    (by norm_num +decide [initState, cxFail, verification_required, riskOf, computeRisk,
      add_amount_zone_risk, add_location_risk, add_unknown_location_risk, add_time_of_day_risk,
      add_merchant_risk, merchantPair, add_velocity_risk, add_location_jump_risk,
      add_behavioral_risk, analyze_spending_patterns, run_verification, full_tier_trace,
      full_tier, mid_tier, pin_tier, lowerStr, trimStr, hourOf, merchant_choice_norm,
      merchant_label_of, merchantKeys, min_def, CORRECT_PIN, SIM_LAST_NAME, SIM_DOB, SIM_CVV,
      Rat.floor])

/-- Counterexample to C4: a transaction whose verification PASSES but whose
decision is "APPROVED (FLAGGED)" still increments `flagged_count` in the
same loop iteration — a pass does not leave `flagged_count` unchanged. -/
theorem C4_counterexample :
    verification_required initState (cxPass 0) ∧
    run_verification (cxPass 0).amount (riskOf initState (cxPass 0)) (cxPass 0).responses =
      true ∧
    decide (riskOf initState (cxPass 0)) = "APPROVED (FLAGGED)" ∧
    (step initState (cxPass 0)).state.flagged_count = initState.flagged_count + 1 := by
  norm_num +decide [initState, cxPass, step, autoApproveStep, failedVerificationStep, failCont,
    normalCompletion, verification_required, riskOf, computeRisk, add_amount_zone_risk,
    add_location_risk, add_unknown_location_risk, add_time_of_day_risk, add_merchant_risk,
    merchantPair, add_velocity_risk, add_location_jump_risk, add_behavioral_risk,
    analyze_spending_patterns, FraudEngine.decide, run_verification, full_tier_trace, full_tier,
    mid_tier, pin_tier, lowerStr, trimStr, hourOf, merchant_choice_norm, merchant_label_of,
    merchantKeys, min_def, CORRECT_PIN, SIM_LAST_NAME, SIM_DOB, SIM_CVV, Rat.floor]

/-- C4 amended: on a transaction where verification runs, a FAIL increments
both `pin_fails` and `flagged_count` by exactly 1; a PASS resets `pin_fails`
to 0, and `flagged_count` then changes only through the decision rule of the
completed transaction: it increments exactly when the decision ≠ APPROVED. -/
theorem C4_verification_effects (s : SessionState) (t : TxInput) (h150 : ¬t.amount < 150)
    (hreq : verification_required s t) :
    (run_verification t.amount (riskOf s t) t.responses = false →
      (step s t).state.pin_fails = s.pin_fails + 1 ∧
      (step s t).state.flagged_count = s.flagged_count + 1) ∧
    (run_verification t.amount (riskOf s t) t.responses = true →
      (step s t).state.pin_fails = 0 ∧
      (step s t).state.flagged_count =
        s.flagged_count + (if decide (riskOf s t) ≠ "APPROVED" then 1 else 0)) := by
  constructor
  · intro hv
    rw [step_failed s t h150 hreq hv]
    exact ⟨(failedVerificationStep_counters s t).1, (failedVerificationStep_counters s t).2.1⟩
  · intro hv
    rw [step_verified s t h150 hreq hv]
    rw [normalCompletion_pin, normalCompletion_flagged]
    exact ⟨rfl, rfl⟩

/-- Witness for C4 (amended): the passing transaction `cxPass 0` resets
`pin_fails` and, because its decision is flagged, increments
`flagged_count`. -/
theorem C4_verification_effects_witness :
    (step initState (cxPass 0)).state.pin_fails = 0 ∧
    (step initState (cxPass 0)).state.flagged_count =
      initState.flagged_count +
        (if decide (riskOf initState (cxPass 0)) ≠ "APPROVED" then 1 else 0) :=
  (C4_verification_effects initState (cxPass 0) (by norm_num [cxPass])
    (Or.inl (by norm_num [cxPass]))).2
    (by norm_num +decide [initState, cxPass, verification_required, riskOf, computeRisk,
      add_amount_zone_risk, add_location_risk, add_unknown_location_risk, add_time_of_day_risk,
      add_merchant_risk, merchantPair, add_velocity_risk, add_location_jump_risk,
      add_behavioral_risk, analyze_spending_patterns, run_verification, full_tier_trace,
      full_tier, mid_tier, pin_tier, lowerStr, trimStr, hourOf, merchant_choice_norm,
      merchant_label_of, merchantKeys, min_def, CORRECT_PIN, SIM_LAST_NAME, SIM_DOB, SIM_CVV,
      Rat.floor])

/-- Five consecutive failed verifications. -/
def c10Txs : List TxInput := [cxFail 0, cxFail 1, cxFail 2, cxFail 3, cxFail 4]

/-- The session state after the first four failed verifications of
`c10Txs`. -/
def c10s4 : SessionState :=
  (runList initState [cxFail 0, cxFail 1, cxFail 2, cxFail 3]).state

/-- Counterexample to C10: the fifth consecutive failed verification freezes
the session (`pin_fails` hits 5) and the loop breaks before the
`last_tx_time`/`last_region` update, so the final state still carries the
fourth transaction's timestamp, not the fifth's — `last_tx_time` is NOT
updated on every failed-verification transaction. (No history entry is ever
appended on this trace.) -/
theorem C10_counterexample :
    verification_required c10s4 (cxFail 4) ∧
    run_verification (cxFail 4).amount (riskOf c10s4 (cxFail 4)) (cxFail 4).responses =
      false ∧
    (runList initState c10Txs).halted = true ∧
    (runList initState c10Txs).state.spending_history = [] ∧
    (runList initState c10Txs).state.last_tx_time = some ((cxFail 3).now) ∧
    (cxFail 3).now ≠ (cxFail 4).now := by
  norm_num +decide [c10s4, c10Txs, runList, step, initState, cxFail, autoApproveStep,
    failedVerificationStep, failCont, normalCompletion, verification_required, riskOf,
    computeRisk, add_amount_zone_risk, add_location_risk, add_unknown_location_risk,
    add_time_of_day_risk, add_merchant_risk, merchantPair, add_velocity_risk,
    add_location_jump_risk, add_behavioral_risk, analyze_spending_patterns, FraudEngine.decide,
    run_verification, full_tier_trace, full_tier, mid_tier, pin_tier, lowerStr, trimStr, hourOf,
    merchant_choice_norm, merchant_label_of, merchantKeys, min_def, CORRECT_PIN, SIM_LAST_NAME,
    SIM_DOB, SIM_CVV, Rat.floor]

/-- C10 amended: a transaction whose verification fails never appends a
history entry, and `last_tx_time`/`last_region` are updated to that
transaction's time and region exactly when the session continues past it;
when that failed transaction halts the session (the freeze/block escalation
or the user declining to continue) the loop breaks before the update and
both fields keep their previous values; exactly one history entry is
appended per auto-approved or fully processed transaction. -/
theorem C10_frame_effects (s : SessionState) (t : TxInput) :
    (¬t.amount < 150 → verification_required s t →
      run_verification t.amount (riskOf s t) t.responses = false →
      (step s t).state.spending_history = s.spending_history ∧
      ((step s t).halted = false →
        (step s t).state.last_tx_time = some t.now ∧
        (step s t).state.last_region = some (t.region.getD ("unknown"))) ∧
      ((step s t).halted = true →
        (step s t).state.last_tx_time = s.last_tx_time ∧
        (step s t).state.last_region = s.last_region)) ∧
    (t.amount < 150 →
      (step s t).state.spending_history = s.spending_history ++
        [{ amount := t.amount, merchant := "Low-Value Auto-Approved", hour := hourOf t.now
           region := "ab" }] ∧
      (step s t).state.last_tx_time = some t.now ∧
      (step s t).state.last_region = some ("ab")) ∧
    (¬t.amount < 150 → verification_required s t →
      run_verification t.amount (riskOf s t) t.responses = true →
      (step s t).state.spending_history = s.spending_history ++
        [{ amount := t.amount, merchant := merchant_label_of t, hour := hourOf t.now
           region := t.region.getD ("unknown") }]) ∧
    (¬t.amount < 150 → ¬verification_required s t →
      (step s t).state.spending_history = s.spending_history ++
        [{ amount := t.amount, merchant := merchant_label_of t, hour := hourOf t.now
           region := t.region.getD ("unknown") }]) := by
  refine ⟨?_, ?_, ?_, ?_⟩
  · intro h150 hreq hv
    rw [step_failed s t h150 hreq hv]
    exact ⟨(failedVerificationStep_counters s t).2.2,
      fun h => ⟨(failedVerificationStep_cont s t h).1, (failedVerificationStep_cont s t h).2.1⟩,
      fun h => failedVerificationStep_halt s t h⟩
  · intro h150
    rw [step_auto s t h150]
    exact ⟨(autoApproveStep_state s t).2.2.2.2, rfl, rfl⟩
  · intro h150 hreq hv
    rw [step_verified s t h150 hreq hv]
    exact normalCompletion_history _ _ _ _
  · intro h150 hreq
    rw [step_no_verification s t h150 hreq]
    exact normalCompletion_history _ _ _ _

/-- Witness for C10 (amended): the first failed verification (`cxFail 0`)
leaves the history empty; if the session continues the trackers take the
transaction's time and region, and if it halts they keep their previous
values. -/
theorem C10_frame_effects_witness :
    (step initState (cxFail 0)).state.spending_history = initState.spending_history ∧
    ((step initState (cxFail 0)).halted = false →
      (step initState (cxFail 0)).state.last_tx_time = some ((cxFail 0).now) ∧
      (step initState (cxFail 0)).state.last_region =
        some (((cxFail 0).region).getD ("unknown"))) ∧
    ((step initState (cxFail 0)).halted = true →
      (step initState (cxFail 0)).state.last_tx_time = initState.last_tx_time ∧
      (step initState (cxFail 0)).state.last_region = initState.last_region) :=
  (C10_frame_effects initState (cxFail 0)).1 (by norm_num [cxFail])
    (Or.inl (by norm_num [cxFail]))
    (by norm_num +decide [initState, cxFail, verification_required, riskOf, computeRisk,
      add_amount_zone_risk, add_location_risk, add_unknown_location_risk, add_time_of_day_risk,
      add_merchant_risk, merchantPair, add_velocity_risk, add_location_jump_risk,
      add_behavioral_risk, analyze_spending_patterns, run_verification, full_tier_trace,
      full_tier, mid_tier, pin_tier, lowerStr, trimStr, hourOf, merchant_choice_norm,
      merchant_label_of, merchantKeys, min_def, CORRECT_PIN, SIM_LAST_NAME, SIM_DOB, SIM_CVV,
      Rat.floor])

end FraudEngine
